import Mathlib

/-!
Verification of the Native Handle Safety Layer of the llvm-nanobind
repository.

The repository ships the Python-facing *consumers* of the binding
(example scripts, obfuscation passes, and an extensive regression-test
corpus under `tests/regressions/`), while the safety layer itself — the
C++ nanobind extension module `llvm` — is not part of the source tree.
Each definition below therefore models that missing layer; where the
regression tests pin a concrete behaviour (exact error-message
fragments, the deferred-creation Module manager) the model follows the
tests, and otherwise it follows the specification's words.
-/

/-! ## Error taxonomy (§7 of the spec)

`LLVMErr` mirrors the Python exception classes `LLVMAssertionError`,
`LLVMMemoryError`, `LLVMUseAfterFreeError`, `LLVMParseError` and
`LLVMError`, each carrying its message text. -/

inductive LLVMErr where
  | assertionError (msg : String)
  | memoryError (msg : String)
  | useAfterFreeError (msg : String)
  | parseError (msg : String)
  | llvmError (msg : String)
deriving DecidableEq, Repr

deriving instance DecidableEq for Except

namespace LLVMErr

def message : LLVMErr → String
  | assertionError m => m
  | memoryError m => m
  | useAfterFreeError m => m
  | parseError m => m
  | llvmError m => m

def isAssertion : LLVMErr → Bool
  | assertionError _ => true
  | _ => false

def isMemory : LLVMErr → Bool
  | memoryError _ => true
  | _ => false

def isUseAfterFree : LLVMErr → Bool
  | useAfterFreeError _ => true
  | _ => false

end LLVMErr

/-! ## Substring checking

The regression tests grep error text for literal fragments
("out of range", "not at end", "different contexts", …), so the model
needs a computable substring test over `String`. -/

def listInfixOf (pat : List Char) : List Char → Bool
  | [] => pat.isEmpty
  | c :: rest => pat.isPrefixOf (c :: rest) || listInfixOf pat rest

/-- `strContains s pat` holds when `pat` occurs contiguously in `s`. -/
def strContains (s pat : String) : Bool := listInfixOf pat.data s.data

/-! ## Resource-manager state machine (§4.3)

Modelled from the spec: the `Created → Entered → Disposed` state machine
of the `ContextManager`, `ModuleManager`, `BuilderManager`,
`DIBuilderManager` and `BinaryManager` classes of the missing `llvm`
extension module. Error-message texts follow the regression test
`tests/regressions/test_full_tree_guard_matrix.py`
(`test_manager_state_machine_guards`), which pins one asymmetry the
spec's words gloss over: the Module manager defers native-module
creation to `__enter__`, so its `dispose()` in the `Created` state
raises `LLVMMemoryError` with "not been created" instead of
succeeding. -/

inductive MKind where
  | context | module | builder | dibuilder | binary
deriving DecidableEq, Repr

inductive MState where
  | created | entered | disposed
deriving DecidableEq, Repr

/-- Modelled from the spec: `dispose()` on a resource manager.
Created → Disposed for Context/Builder/DIBuilder/Binary; the Module
manager has no native module yet in `Created` and refuses (per
`test_manager_state_machine_guards`). -/
def mDispose : MKind → MState → Except LLVMErr MState
  | .module, .created =>
      .error (.memoryError "Module has not been created; use __enter__ first")
  | _, .created => .ok .disposed
  | _, .entered =>
      .error (.memoryError "cannot call dispose() after __enter__; use __exit__ instead")
  | _, .disposed =>
      .error (.memoryError "resource has already been disposed")

/-- Modelled from the spec: entering (`__enter__`) a resource manager. -/
def mEnter : MKind → MState → Except LLVMErr MState
  | _, .created => .ok .entered
  | _, .entered => .error (.memoryError "manager already entered")
  | _, .disposed => .error (.memoryError "resource has already been disposed")

/-- Modelled from the spec: exiting (`__exit__`) a resource manager.
The Context manager reports "not entered" whenever it is not in the
`Entered` state (per `test_manager_state_machine_guards`); the other
managers distinguish `Created` ("not entered") from `Disposed`
("already been disposed"). -/
def mExit : MKind → MState → Except LLVMErr MState
  | _, .entered => .ok .disposed
  | .context, _ => .error (.memoryError "manager not entered")
  | _, .created => .error (.memoryError "manager not entered")
  | _, .disposed => .error (.memoryError "resource has already been disposed")

/-! ## Validity tokens and the lifetime graph (§3, §4.1)

Modelled from the spec: every wrapper derived (transitively) from a root
resource captures a reference to the *root* validity token — liveness is
transitively defined, not per-edge — and `ensure_live` fails with
`LLVMUseAfterFreeError` for simple value/type escapes and
`LLVMMemoryError` for the remaining wrapper families (the split pinned
by `test_memory_safety.py` and
`test_lifetime_guards_for_remaining_wrappers`). -/

inductive WKind where
  | context | module | function | basicBlock | instruction
  | value | type | typeFactory | attribute | comdat
  | namedMDNode | use | valueMetadataEntries
deriving DecidableEq, Repr

/-- Wrapper-kind families whose escape past disposal surfaces as
`LLVMUseAfterFreeError` (values, types and the wrappers derived from
them), per `test_memory_safety.py`. -/
def WKind.escapesAsUseAfterFree : WKind → Bool
  | .value | .type | .function | .basicBlock | .instruction => true
  | _ => false

def WKind.describe : WKind → String
  | .context => "context"
  | .module => "module"
  | .function => "function"
  | .basicBlock => "basicblock"
  | .instruction => "instruction"
  | .value => "value"
  | .type => "type"
  | .typeFactory => "typefactory"
  | .attribute => "attribute"
  | .comdat => "comdat"
  | .namedMDNode => "namedmdnode"
  | .use => "use"
  | .valueMetadataEntries => "valuemetadataentries"

structure Wrapper where
  kind : WKind
  tokenId : Nat
deriving DecidableEq, Repr

/-- Liveness store mapping validity-token ids to their live flag. -/
def TokenStore := Nat → Bool

/-- Modelled from the spec: disposing a root resource sets its validity
token to false, exactly once, never reset. -/
def disposeToken (s : TokenStore) (t : Nat) : TokenStore :=
  fun i => if i = t then false else s i

/-- A wrapper is valid iff its validity token is still live. -/
def Wrapper.isValid (s : TokenStore) (w : Wrapper) : Bool := s w.tokenId

/-- Modelled from the spec: `ensure_live(api_name)` — the liveness check
run by every guarded accessor before touching the native handle. -/
def ensureLive (s : TokenStore) (w : Wrapper) (api : String) :
    Except LLVMErr Unit :=
  if s w.tokenId then .ok ()
  else if w.kind.escapesAsUseAfterFree then
    .error (.useAfterFreeError (api ++ ": " ++ w.kind.describe ++
      " used after context disposed"))
  else
    .error (.memoryError (api ++ ": " ++ w.kind.describe ++
      " used after context disposed"))

/-- Modelled from the spec: a factory/accessor returning a derived
wrapper records its immediate owner and shares the owner's root
token. -/
def deriveWrapper (parent : Wrapper) (k : WKind) : Wrapper :=
  ⟨k, parent.tokenId⟩

/-- Transitive derivation along the lifetime graph: the wrappers whose
validity token traces to the given root. -/
inductive TracesTo (root : Wrapper) : Wrapper → Prop
  | refl : TracesTo root root
  | step {p : Wrapper} (k : WKind) :
      TracesTo root p → TracesTo root (deriveWrapper p k)

/-! ## Kind-guarded accessor dispatch (§4.2)

Modelled from the spec: every guarded accessor compares the wrapper's
immutable kind tag against the operation's accepted kind set before
delegating; on mismatch it raises `LLVMAssertionError` naming the API
and the required kind in prose. The representative accessor table below
follows the wrong-kind matrix of
`tests/regressions/test_value_kind_guards.py`. -/

inductive VKind where
  | icmpInst | fcmpInst | addInst | orInst | subInst | mulInst
  | zextInst | udivInst | brInst | phiInst | switchInst
  | callInst | invokeInst | callbrInst | indirectBrInst
  | loadInst | retInst
  | globalVariable | globalAlias | functionValue | argumentValue
  | constantInt
deriving DecidableEq, Repr

structure GuardedAccessor where
  name : String
  requiredKind : String
  accepts : List VKind
deriving DecidableEq, Repr

/-- Modelled from the spec: the kind check of Guarded Accessor Dispatch
(step 2), run after the liveness check and before any native call. -/
def dispatchKindGuard (a : GuardedAccessor) (v : VKind) :
    Except LLVMErr Unit :=
  if a.accepts.contains v then .ok ()
  else .error (.assertionError (a.name ++ " requires " ++ a.requiredKind))

/-- The guarded-accessor table entries exercised by the claim, with the
accepted kind sets and prose pinned by `test_value_kind_guards.py`. -/
def guardTable : List GuardedAccessor :=
  [ ⟨"icmp_predicate", "an icmp instruction", [.icmpInst]⟩,
    ⟨"fcmp_predicate", "an fcmp instruction", [.fcmpInst]⟩,
    ⟨"nsw", "an overflowing binary operator",
      [.addInst, .subInst, .mulInst]⟩,
    ⟨"nuw", "an overflowing binary operator",
      [.addInst, .subInst, .mulInst]⟩,
    ⟨"exact", "an exact-eligible instruction", [.udivInst]⟩,
    ⟨"nneg", "a zext instruction", [.zextInst]⟩,
    ⟨"is_disjoint", "an or instruction", [.orInst]⟩,
    ⟨"initializer", "a global variable value", [.globalVariable]⟩,
    ⟨"linkage", "a global value",
      [.globalVariable, .globalAlias, .functionValue]⟩,
    ⟨"add_incoming", "a phi node", [.phiInst]⟩,
    ⟨"add_case", "a switch instruction", [.switchInst]⟩,
    ⟨"add_destination", "an indirect branch instruction",
      [.indirectBrInst]⟩,
    ⟨"get_callsite_attribute_count", "a call, invoke, or callbr site",
      [.callInst, .invokeInst, .callbrInst]⟩,
    ⟨"add_callsite_attribute", "a call, invoke, or callbr site",
      [.callInst, .invokeInst, .callbrInst]⟩ ]

/-! ## Index-range guards (§4.2 step 3)

Modelled from the spec: index arguments are validated against the live
owner-reported count; failures raise `LLVMAssertionError` with the
literal fragment "out of range", and attribute indices below the `-1`
function-index sentinel raise the fragment "idx >= -1"
(`test_operand_bounds.py`, `test_value_kind_guards.py`). -/

/-- Modelled from the spec: the generic index-range check of Guarded
Accessor Dispatch for an accessor over an owner reporting `count`
elements. -/
def indexGuard (api : String) (count : Nat) (i : Int) :
    Except LLVMErr Nat :=
  if 0 ≤ i ∧ i < (count : Int) then .ok i.toNat
  else .error (.assertionError
    ((api ++ ": index " ++ toString i ++ " ") ++ "out of range" ++
      (" (count=" ++ toString count ++ ")")))

/-- Modelled from the spec: `Value.get_operand(i)` — the index check
against `num_operands`, with the diagnostic naming `num_operands`
(`test_operand_bounds.py`). -/
def getOperand (numOperands : Nat) (i : Int) : Except LLVMErr Nat :=
  if 0 ≤ i ∧ i < (numOperands : Int) then .ok i.toNat
  else .error (.assertionError
    (("get_operand: operand index " ++ toString i ++ " ") ++
      "out of range" ++
      (" (num_operands=" ++ toString numOperands ++ ")")))

/-- Modelled from the spec: the callsite attribute-index check — `-1` is
the function-index sentinel and anything below it is rejected. -/
def callsiteAttrIndexGuard (api : String) (idx : Int) :
    Except LLVMErr Unit :=
  if idx < -1 then
    .error (.assertionError
      ((api ++ ": invalid attribute index, ") ++ "idx >= -1" ++
        " is required"))
  else .ok ()

/-! ## Mutation validator: blocks, instructions, moves and splits (§4.5)

Modelled from the spec: the structural-edit layer over basic blocks.
Instructions carry the owning context id (for the cross-context check),
an opcode, and a unique wrapper id; blocks are named instruction lists;
a function is a block list. Every rejected mutation is checked before
any mutation occurs (all-or-nothing). Message fragments follow
`test_instruction_move_and_aliases.py` and
`test_split_basic_block.py`. -/

inductive Opcode where
  | phi
  | landingpad
  | add
  | mul
  | extractvalue
  | br (dest : String)
  | condBr (tdest fdest : String)
  | ret
deriving DecidableEq, Repr

def Opcode.opName : Opcode → String
  | .phi => "phi"
  | .landingpad => "landingpad"
  | .add => "add"
  | .mul => "mul"
  | .extractvalue => "extractvalue"
  | .br _ => "br"
  | .condBr _ _ => "br"
  | .ret => "ret"

def Opcode.isPhi : Opcode → Bool
  | .phi => true
  | _ => false

def Opcode.isLandingPad : Opcode → Bool
  | .landingpad => true
  | _ => false

def Opcode.isTerminator : Opcode → Bool
  | .br _ | .condBr _ _ | .ret => true
  | _ => false

/-- Successor block names of a terminator opcode. -/
def Opcode.succs : Opcode → List String
  | .br d => [d]
  | .condBr t f => [t, f]
  | _ => []

/-- Retarget every successor edge equal to `old` to `new` (used by
`split_basic_block_before` predecessor rewiring). -/
def Opcode.retarget (old new : String) : Opcode → Opcode
  | .br d => .br (if d = old then new else d)
  | .condBr t f =>
      .condBr (if t = old then new else t) (if f = old then new else f)
  | op => op

structure Instr where
  id : Nat
  op : Opcode
  ctxId : Nat
deriving DecidableEq, Repr

structure Block where
  bname : String
  instrs : List Instr
deriving DecidableEq, Repr

structure Func where
  blocks : List Block
deriving DecidableEq, Repr

/-- The opcode sequence of a block, as read back by the regression
tests after a rejected mutation. -/
def Block.opcodeNames (b : Block) : List String :=
  b.instrs.map (fun i => i.op.opName)

/-- Textual serialization of an instruction (the model of the
`module.to_string()` line for it). -/
def Instr.serialize (i : Instr) : String :=
  "  " ++ i.op.opName ++
    (i.op.succs.foldl (fun acc d => acc ++ " %" ++ d) "") ++ "\n"

def Block.serialize (b : Block) : String :=
  b.bname ++ ":\n" ++
    (b.instrs.foldl (fun acc i => acc ++ i.serialize) "")

/-- Textual serialization of a function body — the model of the
module's textual form compared byte-for-byte by the tests. -/
def Func.serialize (f : Func) : String :=
  f.blocks.foldl (fun acc b => acc ++ b.serialize) ""

def Func.findBlock (f : Func) (name : String) : Option Block :=
  f.blocks.find? (fun b => b.bname = name)

/-- Locate an instruction wrapper by id: the owning block and the
instruction. -/
def Func.locate (f : Func) (iid : Nat) : Option (Block × Instr) :=
  match f.blocks.find? (fun b => b.instrs.any (fun i => i.id = iid)) with
  | none => none
  | some b =>
    match b.instrs.find? (fun i => i.id = iid) with
    | none => none
    | some i => some (b, i)

/-- Number of leading PHI instructions of a list. -/
def phiPrefixLen (l : List Instr) : Nat :=
  (l.takeWhile (fun i => i.op.isPhi)).length

def eraseInstr (l : List Instr) (iid : Nat) : List Instr :=
  l.filter (fun j => j.id ≠ iid)

/-- Index of instruction `pid` in a list. -/
def instrIdx (l : List Instr) (pid : Nat) : Nat :=
  l.findIdx (fun j => j.id = pid)

/-- Modelled from the spec: the precondition checks of
`Instruction.move_before` / `move_after`, run before any mutation.
`pos` is the insertion index the moved instruction would land at inside
the target block once removed from its current position, and `target`
is the target block's instruction list with the moved instruction
erased. -/
def moveValidate (mover : Instr) (target : List Instr) (pos : Nat)
    (moverCtx targetCtx : Nat) (atEnd : Bool) (afterTerminator : Bool) :
    Option LLVMErr :=
  if moverCtx ≠ targetCtx then
    some (.assertionError
      ("cannot move an instruction between " ++ "different contexts" ++ ""))
  else if afterTerminator then
    some (.assertionError
      ("cannot move an instruction past the block " ++ "terminator" ++ ""))
  else if mover.op.isTerminator ∧ ¬ atEnd then
    some (.assertionError
      ("a " ++ "terminator" ++
        " may only be placed at the end of a block"))
  else if mover.op.isLandingPad ∧ pos ≠ phiPrefixLen target then
    some (.assertionError
      ("a " ++ "LandingPad" ++
        " must remain the first non-PHI instruction of its block"))
  else if ¬ mover.op.isPhi ∧ pos < phiPrefixLen target then
    some (.assertionError
      ("cannot insert a " ++ "non-PHI" ++ " instruction before " ++
        "PHI" ++ " nodes"))
  else if mover.op.isPhi ∧ pos > phiPrefixLen target then
    some (.assertionError
      ("a " ++ "PHI" ++
        " node must stay within the PHI prefix of the block"))
  else
    none

/-- Apply a validated move: erase `mover` everywhere and insert it at
`pos` of the target block. -/
def moveApply (f : Func) (mover : Instr) (targetBlock : String)
    (pos : Nat) : Func :=
  ⟨f.blocks.map (fun b =>
    let without := eraseInstr b.instrs mover.id
    if b.bname = targetBlock then
      ⟨b.bname, without.take pos ++ mover :: without.drop pos⟩
    else
      ⟨b.bname, without⟩)⟩

/-- Wrap a checked structural edit into the caller-visible result: on
rejection the original function is returned untouched together with the
error (all-or-nothing rejection). -/
def runEdit (f : Func) (r : Except LLVMErr Func) : Func × Option LLVMErr :=
  match r with
  | .ok f2 => (f2, none)
  | .error e => (f, some e)

/-- The checked core of `move_before`: validate, then mutate. -/
def moveBeforeE (f : Func) (iid pid : Nat) : Except LLVMErr Func :=
  match f.locate iid, f.locate pid with
  | some (_, mover), some (tb, posInstr) =>
    let adjusted := eraseInstr tb.instrs iid
    let pos := instrIdx adjusted pid
    match moveValidate mover adjusted pos mover.ctxId posInstr.ctxId
        (decide (pos = adjusted.length)) false with
    | some e => .error e
    | none => .ok (moveApply f mover tb.bname pos)
  | _, _ =>
    .error (.assertionError
      ("move_before: instruction " ++ "not found" ++ ""))

/-- Modelled from the spec: `Instruction.move_before(pos)` — all
preconditions checked before any mutation; on rejection the function is
returned unchanged together with the error. -/
def moveBefore (f : Func) (iid pid : Nat) : Func × Option LLVMErr :=
  runEdit f (moveBeforeE f iid pid)

/-- The checked core of `move_after`: validate, then mutate. Moving
anything after a terminator is rejected; a terminator itself may move
only to the end of the target block. -/
def moveAfterE (f : Func) (iid pid : Nat) : Except LLVMErr Func :=
  match f.locate iid, f.locate pid with
  | some (_, mover), some (tb, posInstr) =>
    let adjusted := eraseInstr tb.instrs iid
    let pos := instrIdx adjusted pid + 1
    match moveValidate mover adjusted pos mover.ctxId posInstr.ctxId
        (decide (pos = adjusted.length)) posInstr.op.isTerminator with
    | some e => .error e
    | none => .ok (moveApply f mover tb.bname pos)
  | _, _ =>
    .error (.assertionError
      ("move_after: instruction " ++ "not found" ++ ""))

/-- Modelled from the spec: `Instruction.move_after(pos)`. -/
def moveAfter (f : Func) (iid pid : Nat) : Func × Option LLVMErr :=
  runEdit f (moveAfterE f iid pid)

/-- The unconditional branch inserted by the split operations. -/
def brInstr (freshId ctxId : Nat) (dest : String) : Instr :=
  ⟨freshId, .br dest, ctxId⟩

/-- Modelled from the spec: `BasicBlock.split_basic_block(inst, name)`.
Rejects a split point that is a PHI or that is not found in the target
block, before any mutation; on success the original block keeps the
prefix and ends in an unconditional branch to the new block, which
receives the split point and everything after it and sits right after
the original in the function's block list. -/
def splitBasicBlockE (f : Func) (srcName : String) (iid : Nat)
    (newName : String) (freshId ctxId : Nat) : Except LLVMErr Func :=
  match f.findBlock srcName with
  | none =>
    .error (.assertionError
      ("split_basic_block: block " ++ "not found" ++ " in function"))
  | some b =>
    match b.instrs.find? (fun j => j.id = iid) with
    | none =>
      .error (.assertionError
        ("split_basic_block: instruction " ++ "not found" ++
          " in block"))
    | some i =>
      if i.op.isPhi then
        .error (.assertionError
          ("split_basic_block: cannot split at a " ++ "PHI" ++
            " node"))
      else
        let pre := b.instrs.takeWhile (fun j => j.id ≠ iid)
        let suf := b.instrs.dropWhile (fun j => j.id ≠ iid)
        let origB : Block :=
          ⟨b.bname, pre ++ [brInstr freshId ctxId newName]⟩
        let newB : Block := ⟨newName, suf⟩
        .ok ⟨f.blocks.flatMap (fun c =>
          if c.bname = b.bname then [origB, newB] else [c])⟩

/-- The caller-visible `split_basic_block`. -/
def splitBasicBlock (f : Func) (srcName : String) (iid : Nat)
    (newName : String) (freshId ctxId : Nat) : Func × Option LLVMErr :=
  runEdit f (splitBasicBlockE f srcName iid newName freshId ctxId)

/-- Modelled from the spec:
`BasicBlock.split_basic_block_before(inst, name)`. Same rejections as
`split_basic_block`; on success the new predecessor block receives the
prefix and branches unconditionally to the original block, and every
other block's successor edges that targeted the original are retargeted
to the new predecessor. -/
def splitBasicBlockBeforeE (f : Func) (srcName : String) (iid : Nat)
    (newName : String) (freshId ctxId : Nat) : Except LLVMErr Func :=
  match f.findBlock srcName with
  | none =>
    .error (.assertionError
      ("split_basic_block_before: block " ++ "not found" ++
        " in function"))
  | some b =>
    match b.instrs.find? (fun j => j.id = iid) with
    | none =>
      .error (.assertionError
        ("split_basic_block_before: instruction " ++ "not found" ++
          " in block"))
    | some i =>
      if i.op.isPhi then
        .error (.assertionError
          ("split_basic_block_before: cannot split at a " ++ "PHI" ++
            " node"))
      else
        let pre := b.instrs.takeWhile (fun j => j.id ≠ iid)
        let suf := b.instrs.dropWhile (fun j => j.id ≠ iid)
        let newB : Block :=
          ⟨newName, pre ++ [brInstr freshId ctxId b.bname]⟩
        let origB : Block := ⟨b.bname, suf⟩
        .ok ⟨f.blocks.flatMap (fun c =>
          if c.bname = b.bname then [newB, origB]
          else [⟨c.bname,
            c.instrs.map (fun j =>
              ⟨j.id, j.op.retarget b.bname newName, j.ctxId⟩)⟩])⟩

/-- The caller-visible `split_basic_block_before`. -/
def splitBasicBlockBefore (f : Func) (srcName : String) (iid : Nat)
    (newName : String) (freshId ctxId : Nat) : Func × Option LLVMErr :=
  runEdit f (splitBasicBlockBeforeE f srcName iid newName freshId ctxId)

/-! ## End-guarded binary iterators (§4.4)

Modelled from the spec: forward cursors over the sections/symbols/
relocations of an object-file binary. A cursor is a position into the
native element sequence; `move_next` is a no-op past the end; every
property accessor raises `LLVMAssertionError` containing "not at end"
while `is_at_end()` is true; Pythonic `__next__` yields the current
element and then advances (yield-then-advance). -/

structure BinElem where
  ename : String
  addr : Nat
  esize : Nat
  contents : String
  offset : Nat
  rtype : Nat
  typeName : String
  valueString : String
deriving DecidableEq, Repr

structure BinIter where
  elems : List BinElem
  pos : Nat
deriving DecidableEq, Repr

def BinIter.isAtEnd (it : BinIter) : Bool :=
  it.elems.length ≤ it.pos

/-- Modelled from the spec: `move_next()` advances one element and is a
no-op past the end. -/
def BinIter.moveNext (it : BinIter) : BinIter :=
  if it.isAtEnd then it else ⟨it.elems, it.pos + 1⟩

/-- Modelled from the spec: the end-position guard every property
accessor runs before reading the current element. -/
def BinIter.current (it : BinIter) (api : String) :
    Except LLVMErr BinElem :=
  if h : it.pos < it.elems.length then .ok (it.elems.get ⟨it.pos, h⟩)
  else .error (.assertionError
    ((api ++ " requires an iterator that is ") ++ "not at end" ++ ""))

def BinIter.name (it : BinIter) : Except LLVMErr String :=
  (it.current "name").map (fun e => e.ename)

def BinIter.address (it : BinIter) : Except LLVMErr Nat :=
  (it.current "address").map (fun e => e.addr)

def BinIter.size (it : BinIter) : Except LLVMErr Nat :=
  (it.current "size").map (fun e => e.esize)

def BinIter.sectionContents (it : BinIter) : Except LLVMErr String :=
  (it.current "contents").map (fun e => e.contents)

def BinIter.relocOffset (it : BinIter) : Except LLVMErr Nat :=
  (it.current "offset").map (fun e => e.offset)

def BinIter.relocType (it : BinIter) : Except LLVMErr Nat :=
  (it.current "type").map (fun e => e.rtype)

def BinIter.relocTypeName (it : BinIter) : Except LLVMErr String :=
  (it.current "type_name").map (fun e => e.typeName)

def BinIter.relocValueString (it : BinIter) : Except LLVMErr String :=
  (it.current "value_string").map (fun e => e.valueString)

/-- Modelled from the spec: `contains_symbol(sym)` requires its symbol
argument to not be at its own end position. -/
def BinIter.containsSymbol (sect sym : BinIter) :
    Except LLVMErr Bool :=
  match sym.current "contains_symbol" with
  | .error e => .error e
  | .ok s =>
    match sect.current "contains_symbol" with
    | .error e => .error e
    | .ok c => .ok (c.addr ≤ s.addr ∧ s.addr < c.addr + c.esize : Bool)

/-- Modelled from the spec: `move_to_containing_section(sym)` requires
its symbol argument to not be at its own end position. -/
def BinIter.moveToContainingSection (sect sym : BinIter) :
    Except LLVMErr BinIter :=
  match sym.current "move_to_containing_section" with
  | .error e => .error e
  | .ok s =>
    .ok ⟨sect.elems,
      sect.elems.findIdx (fun c =>
        c.addr ≤ s.addr ∧ s.addr < c.addr + c.esize)⟩

/-- The manual loop of `test_binary_iterators_match_manual_iteration`:
`while not is_at_end(): record current name; move_next()`. -/
def BinIter.manualNames (it : BinIter) : List String :=
  if h : it.pos < it.elems.length then
    (it.elems.get ⟨it.pos, h⟩).ename :: BinIter.manualNames it.moveNext
  else []
termination_by it.elems.length - it.pos
decreasing_by
  simp [BinIter.moveNext, BinIter.isAtEnd, Nat.not_le.mpr h]
  omega

/-- Modelled from the spec: the Python iterator protocol step —
`__next__` yields the *current* element and then advances
(yield-then-advance, never advance-then-yield). -/
def BinIter.pyNext (it : BinIter) : Option (String × BinIter) :=
  if h : it.pos < it.elems.length then
    some ((it.elems.get ⟨it.pos, h⟩).ename, it.moveNext)
  else none

/-- The names produced by a Pythonic for-loop over the iterator:
repeated `__next__` until exhaustion. -/
def BinIter.pythonNames (it : BinIter) : List String :=
  match h : it.pyNext with
  | none => []
  | some (n, it') => n :: BinIter.pythonNames it'
termination_by it.elems.length - it.pos
decreasing_by
  simp only [BinIter.pyNext] at h
  split at h
  · cases h
    simp_all [BinIter.moveNext, BinIter.isAtEnd, Nat.not_le.mpr]
    omega
  · cases h

/-! ## Byte-exact string constants (§6)

Modelled from the spec: `const_string(ctx, b, dont_null_terminate)` and
`const_data_array(ty, b)` over a `bytes` input pass the exact byte
buffer with an explicit length to the native call — no text-codec
re-encoding — appending a single NUL byte only when null termination is
requested (`test_const_bytes.py`). -/

structure ConstDataArray where
  bytes : List Nat
deriving DecidableEq, Repr

/-- The element count of the constant's array type. -/
def ConstDataArray.arrayLength (c : ConstDataArray) : Nat :=
  c.bytes.length

/-- Modelled from the spec: `const_string` on a bytes input. -/
def constString (b : List Nat) (dontNullTerminate : Bool) :
    ConstDataArray :=
  if dontNullTerminate then ⟨b⟩ else ⟨b ++ [0]⟩

/-- Modelled from the spec: `const_data_array` on a bytes input. -/
def constDataArray (b : List Nat) : ConstDataArray := ⟨b⟩

/-! ## Exception-first Function accessors

Modelled from the spec and
`tests/regressions/test_exception_first_accessors.py`: block accessors
on a declaration and personality/prefix/prologue accessors on a
function without the corresponding datum raise `LLVMAssertionError`
naming the accessor and the guard predicate to check, instead of
returning None. -/

structure FuncW where
  blockNames : List String
  personality : Option String
  prefixDatum : Option Nat
  prologueDatum : Option Nat
deriving DecidableEq, Repr

def FuncW.isDeclaration (f : FuncW) : Bool := f.blockNames.isEmpty

def FuncW.basicBlockCount (f : FuncW) : Nat := f.blockNames.length

def FuncW.hasPersonalityFn (f : FuncW) : Bool := f.personality.isSome

def FuncW.hasPrefixData (f : FuncW) : Bool := f.prefixDatum.isSome

def FuncW.hasPrologueData (f : FuncW) : Bool := f.prologueDatum.isSome

/-- Modelled from the spec: `Function.entry_block`. -/
def FuncW.entryBlock (f : FuncW) : Except LLVMErr String :=
  match f.blockNames with
  | [] => .error (.assertionError
      (("entry_block" ++ " requires a function definition; check ") ++
        "is_declaration" ++ " first"))
  | b :: _ => .ok b

/-- Modelled from the spec: `Function.first_basic_block`. -/
def FuncW.firstBasicBlock (f : FuncW) : Except LLVMErr String :=
  match f.blockNames with
  | [] => .error (.assertionError
      (("first_basic_block" ++ " requires at least one block; check ") ++
        "basic_block_count" ++ " first"))
  | b :: _ => .ok b

/-- Modelled from the spec: `Function.last_basic_block`. -/
def FuncW.lastBasicBlock (f : FuncW) : Except LLVMErr String :=
  match f.blockNames.getLast? with
  | none => .error (.assertionError
      (("last_basic_block" ++ " requires at least one block; check ") ++
        "basic_block_count" ++ " first"))
  | some b => .ok b

/-- Modelled from the spec: `Function.personality_fn` /
`get_personality_fn()`. -/
def FuncW.personalityFn (f : FuncW) : Except LLVMErr String :=
  match f.personality with
  | none => .error (.assertionError
      (("personality_fn" ++ " is absent; check ") ++
        "has_personality_fn" ++ " first"))
  | some p => .ok p

def FuncW.getPersonalityFn (f : FuncW) : Except LLVMErr String :=
  match f.personality with
  | none => .error (.assertionError
      (("get_personality_fn" ++ " is absent; check ") ++
        "has_personality_fn" ++ " first"))
  | some p => .ok p

/-- Modelled from the spec: `Function.prefix_data`. -/
def FuncW.prefixData (f : FuncW) : Except LLVMErr Nat :=
  match f.prefixDatum with
  | none => .error (.assertionError
      (("prefix_data" ++ " is absent; check ") ++
        "has_prefix_data" ++ " first"))
  | some d => .ok d

/-- Modelled from the spec: `Function.prologue_data`. -/
def FuncW.prologueData (f : FuncW) : Except LLVMErr Nat :=
  match f.prologueDatum with
  | none => .error (.assertionError
      (("prologue_data" ++ " is absent; check ") ++
        "has_prologue_data" ++ " first"))
  | some d => .ok d

/-! ## Binary kind guard

Modelled from the spec and `test_manager_state_machine_guards`: the
`sections`/`symbols` iterator properties of a `Binary` created from
non-object bytes (e.g. bitcode) raise `LLVMAssertionError` mentioning
an object-file binary instead of iterating the wrong binary kind. -/

inductive BinaryKind where
  | objectFile | bitcode | archive | unknown
deriving DecidableEq, Repr

structure BinaryW where
  kind : BinaryKind
  sectionElems : List BinElem
  symbolElems : List BinElem
deriving DecidableEq, Repr

/-- Modelled from the spec: the `Binary.sections` property. -/
def BinaryW.sections (b : BinaryW) : Except LLVMErr BinIter :=
  if b.kind = .objectFile then .ok ⟨b.sectionElems, 0⟩
  else .error (.assertionError
    (("sections requires an " ++ "object-file binary" ++ "") ++
      ", not this binary kind"))

/-- Modelled from the spec: the `Binary.symbols` property. -/
def BinaryW.symbols (b : BinaryW) : Except LLVMErr BinIter :=
  if b.kind = .objectFile then .ok ⟨b.symbolElems, 0⟩
  else .error (.assertionError
    (("symbols requires an " ++ "object-file binary" ++ "") ++
      ", not this binary kind"))

/-! ## Result checkers

Boolean observers used to state the grep-style assertions of the test
corpus: an operation fails with a given error class and a given literal
message fragment. -/

def failsWith {α : Type} (isKind : LLVMErr → Bool) (frag : String) :
    Except LLVMErr α → Bool
  | .error e => isKind e && strContains e.message frag
  | .ok _ => false

def optFailsWith (isKind : LLVMErr → Bool) (frag : String) :
    Option LLVMErr → Bool
  | some e => isKind e && strContains e.message frag
  | none => false

/-! ### Concrete fixtures

The functions built by the regression tests, as values of the model:
`diamondFunc` is the 4-block diamond CFG with a PHI at the merge block
(`test_instruction_move_rejects_invalid_placement`,
`test_split_basic_block_rejects_phi`); `crossCtxFunc` packs the two
single-block functions of `test_instruction_move_rejects_cross_context`
(contexts 1 and 2); `lpFunc` is the unwind block of
`test_landingpad_move_rejected_and_ir_unchanged`; `splitFunc` and
`wrongBlockFunc` mirror `test_split_basic_block` and
`test_split_basic_block_wrong_instruction`. -/

def diamondFunc : Func :=
  ⟨[⟨"entry", [⟨0, .condBr "left" "right", 1⟩]⟩,
    ⟨"left", [⟨1, .add, 1⟩, ⟨2, .br "merge", 1⟩]⟩,
    ⟨"right", [⟨3, .br "merge", 1⟩]⟩,
    ⟨"merge", [⟨4, .phi, 1⟩, ⟨5, .add, 1⟩, ⟨6, .ret, 1⟩]⟩]⟩

def crossCtxFunc : Func :=
  ⟨[⟨"bb1", [⟨0, .add, 1⟩, ⟨1, .ret, 1⟩]⟩,
    ⟨"bb2", [⟨2, .add, 2⟩, ⟨3, .ret, 2⟩]⟩]⟩

def lpFunc : Func :=
  ⟨[⟨"unwind", [⟨0, .landingpad, 1⟩, ⟨1, .extractvalue, 1⟩,
      ⟨2, .ret, 1⟩]⟩]⟩

def splitFunc : Func :=
  ⟨[⟨"entry", [⟨0, .add, 1⟩, ⟨1, .mul, 1⟩, ⟨2, .ret, 1⟩]⟩]⟩

def wrongBlockFunc : Func :=
  ⟨[⟨"bb1", [⟨0, .br "bb2", 1⟩]⟩,
    ⟨"bb2", [⟨1, .add, 1⟩, ⟨2, .ret, 1⟩]⟩]⟩

def startWorkFunc : Func :=
  ⟨[⟨"start", [⟨0, .br "work", 1⟩]⟩,
    ⟨"work", [⟨1, .add, 1⟩, ⟨2, .ret, 1⟩]⟩]⟩

/-! ## Helper lemmas -/

theorem listInfixOf_iff (pat l : List Char) :
    listInfixOf pat l = true ↔ pat <:+: l := by
  induction l with
  | nil => simp [listInfixOf, List.isEmpty_iff]
  | cons c rest ih =>
    simp [listInfixOf, List.isPrefixOf_iff_prefix, ih, List.infix_cons_iff]

theorem strContains_mid (a pat b : String) :
    strContains (a ++ pat ++ b) pat = true := by
  rw [strContains, listInfixOf_iff]
  simp only [String.data_append]
  exact List.infix_append a.data pat.data b.data

theorem strContains_self (s : String) : strContains s s = true := by
  rw [strContains, listInfixOf_iff]

theorem strContains_of_append_left (a pat b : String)
    (h : strContains a pat = true) : strContains (a ++ b) pat = true := by
  rw [strContains, listInfixOf_iff] at h ⊢
  rw [String.data_append]
  exact h.trans (List.prefix_append a.data b.data).isInfix

theorem strContains_of_append_right (a pat b : String)
    (h : strContains b pat = true) : strContains (a ++ b) pat = true := by
  rw [strContains, listInfixOf_iff] at h ⊢
  rw [String.data_append]
  exact h.trans (List.suffix_append a.data b.data).isInfix

theorem TracesTo.tokenId_eq {root w : Wrapper} (h : TracesTo root w) :
    w.tokenId = root.tokenId := by
  induction h with
  | refl => rfl
  | step k _ ih => simpa [deriveWrapper] using ih

/-! ## C1 — cascading invalidation -/

/-- C1: disposing a Context's resource manager invalidates every wrapper
whose validity token traces to that context — Module, Function,
BasicBlock, Instruction, Value, Type, TypeFactory, Attribute, Comdat,
NamedMDNode, Use, ValueMetadataEntries alike. Afterwards no such wrapper
reports itself valid, and every guarded access fails with
`LLVMMemoryError` or `LLVMUseAfterFreeError`. -/
theorem C1_cascading_invalidation (s : TokenStore) (ctx w : Wrapper)
    (api : String) (hw : TracesTo ctx w) :
    Wrapper.isValid (disposeToken s ctx.tokenId) w = false ∧
    ∃ e, ensureLive (disposeToken s ctx.tokenId) w api = .error e ∧
      (e.isMemory = true ∨ e.isUseAfterFree = true) := by
  have ht : w.tokenId = ctx.tokenId := hw.tokenId_eq
  have hdead : disposeToken s ctx.tokenId w.tokenId = false := by
    simp [disposeToken, ht]
  refine ⟨hdead, ?_⟩
  by_cases hk : w.kind.escapesAsUseAfterFree = true
  · exact ⟨LLVMErr.useAfterFreeError (api ++ ": " ++ w.kind.describe ++
      " used after context disposed"),
      by simp [ensureLive, hdead, hk], Or.inr rfl⟩
  · exact ⟨LLVMErr.memoryError (api ++ ": " ++ w.kind.describe ++
      " used after context disposed"),
      by simp [ensureLive, hdead, hk], Or.inl rfl⟩

/-- Witness for C1 at the concrete chain
Context → Module → Function → BasicBlock → Instruction. -/
theorem C1_cascading_invalidation_witness :
    Wrapper.isValid (disposeToken (fun _ => true) 0)
      (deriveWrapper (deriveWrapper (deriveWrapper
        (deriveWrapper ⟨WKind.context, 0⟩ .module) .function)
        .basicBlock) .instruction) = false ∧
    ∃ e, ensureLive (disposeToken (fun _ => true) 0)
      (deriveWrapper (deriveWrapper (deriveWrapper
        (deriveWrapper ⟨WKind.context, 0⟩ .module) .function)
        .basicBlock) .instruction) "opcode" = .error e ∧
      (e.isMemory = true ∨ e.isUseAfterFree = true) :=
  C1_cascading_invalidation (fun _ => true) ⟨WKind.context, 0⟩ _ "opcode"
    (TracesTo.step _ (TracesTo.step _ (TracesTo.step _
      (TracesTo.step _ TracesTo.refl))))

/-! ## C2 — resource-manager state machine -/

/-- C2 counterexample: the claim states that `dispose()` called in the
`Created` state succeeds for every one of the five managers, but the
Module manager (which creates its native module only at `__enter__`)
raises `LLVMMemoryError` containing "not been created" instead, as
asserted by `test_manager_state_machine_guards`. -/
theorem C2_manager_counterexample :
    mDispose MKind.module MState.created ≠ Except.ok MState.disposed ∧
    mDispose MKind.module MState.created = Except.error
      (LLVMErr.memoryError
        "Module has not been created; use __enter__ first") ∧
    failsWith LLVMErr.isMemory "not been created"
      (mDispose MKind.module MState.created) = true := by
  decide

/-- C2 (amended): the Created→Entered→Disposed state machine behaves
identically for the Context, Builder, DIBuilder and Binary managers:
`dispose()` in `Created` succeeds without exposing the wrapped resource
and a second `dispose()` raises `LLVMMemoryError` containing "already
been disposed". The Module manager differs in exactly one transition:
its `dispose()` in `Created` raises `LLVMMemoryError` containing "not
been created" (the native module is only created at `__enter__`). For
all five managers: entering from `Entered` raises `LLVMMemoryError`
containing "already entered"; `dispose()` from `Entered` raises
`LLVMMemoryError`; exit from `Entered` disposes; exit from `Created`
raises `LLVMMemoryError` containing "not entered"; exit from `Disposed`
raises `LLVMMemoryError`. -/
theorem C2_manager_state_machine (k : MKind) :
    (k ≠ .module → mDispose k .created = .ok .disposed) ∧
    (k = .module →
      failsWith LLVMErr.isMemory "not been created"
        (mDispose k .created) = true) ∧
    failsWith LLVMErr.isMemory "already been disposed"
      (mDispose k .disposed) = true ∧
    failsWith LLVMErr.isMemory "already entered"
      (mEnter k .entered) = true ∧
    failsWith LLVMErr.isMemory "" (mDispose k .entered) = true ∧
    mExit k .entered = .ok .disposed ∧
    failsWith LLVMErr.isMemory "not entered" (mExit k .created) = true ∧
    failsWith LLVMErr.isMemory "" (mExit k .disposed) = true := by
  cases k <;> decide

/-- Witness for C2 at the Binary manager (hypothesis `k ≠ .module`)
and the Module manager (hypothesis `k = .module`). -/
theorem C2_manager_state_machine_witness :
    mDispose MKind.binary MState.created = .ok MState.disposed ∧
    failsWith LLVMErr.isMemory "not been created"
      (mDispose MKind.module MState.created) = true :=
  ⟨(C2_manager_state_machine MKind.binary).1 (by decide),
    (C2_manager_state_machine MKind.module).2.1 rfl⟩

/-! ## C3 — kind-guard completeness -/

/-- C3: for every kind-guarded accessor of the guard table
(icmp_predicate, nsw/nuw/exact/nneg flags, initializer, linkage,
add_incoming, add_case, callsite attribute accessors, …), invoking it on
a wrapper whose kind is not accepted raises `LLVMAssertionError` whose
message names the invoked API and the required kind in prose; invoking
it on a wrapper of an accepted kind succeeds. -/
theorem C3_kind_guard_completeness (a : GuardedAccessor) (v : VKind)
    (ha : a ∈ guardTable) :
    (a.accepts.contains v = false →
      failsWith LLVMErr.isAssertion a.name
        (dispatchKindGuard a v) = true ∧
      failsWith LLVMErr.isAssertion a.requiredKind
        (dispatchKindGuard a v) = true) ∧
    (a.accepts.contains v = true → dispatchKindGuard a v = .ok ()) := by
  clear ha
  constructor
  · intro hno
    rw [dispatchKindGuard, if_neg (by rw [hno]; exact Bool.false_ne_true)]
    refine ⟨?_, ?_⟩ <;>
      simp only [failsWith, LLVMErr.isAssertion, LLVMErr.message,
        Bool.true_and]
    · exact strContains_of_append_left _ _ _
        (strContains_of_append_left _ _ _ (strContains_self a.name))
    · exact strContains_of_append_right _ _ _
        (strContains_self a.requiredKind)
  · intro hyes
    rw [dispatchKindGuard, if_pos hyes]

/-- Witness for C3: `icmp_predicate` on an `add` instruction fails with
an `LLVMAssertionError` naming the API and required kind, and succeeds
on an `icmp` instruction. -/
theorem C3_kind_guard_completeness_witness :
    (failsWith LLVMErr.isAssertion "icmp_predicate"
      (dispatchKindGuard
        ⟨"icmp_predicate", "an icmp instruction", [.icmpInst]⟩
        .addInst) = true ∧
    failsWith LLVMErr.isAssertion "an icmp instruction"
      (dispatchKindGuard
        ⟨"icmp_predicate", "an icmp instruction", [.icmpInst]⟩
        .addInst) = true) ∧
    dispatchKindGuard
      ⟨"icmp_predicate", "an icmp instruction", [.icmpInst]⟩
      .icmpInst = .ok () :=
  ⟨(C3_kind_guard_completeness
      ⟨"icmp_predicate", "an icmp instruction", [.icmpInst]⟩
      .addInst (by decide)).1 (by decide),
    (C3_kind_guard_completeness
      ⟨"icmp_predicate", "an icmp instruction", [.icmpInst]⟩
      .icmpInst (by decide)).2 (by decide)⟩

/-! ## C4 — index-bound safety -/

/-- C4: for every index-taking accessor over an owner reporting count
`N`, indices in `[0, N)` succeed and indices outside raise
`LLVMAssertionError` containing "out of range" (so in particular at the
boundary values `N-1`, `N` and negatives); `get_operand(0)` on a value
with zero operands fails with text containing both "out of range" and
"num_operands=0"; callsite-attribute indices below the `-1` sentinel
raise an error containing "idx >= -1". -/
theorem C4_index_bounds (api : String) (count : Nat) (i : Int) :
    (0 ≤ i ∧ i < (count : Int) →
      indexGuard api count i = .ok i.toNat ∧
      getOperand count i = .ok i.toNat) ∧
    (¬(0 ≤ i ∧ i < (count : Int)) →
      failsWith LLVMErr.isAssertion "out of range"
        (indexGuard api count i) = true ∧
      failsWith LLVMErr.isAssertion "out of range"
        (getOperand count i) = true) ∧
    (failsWith LLVMErr.isAssertion "out of range"
        (getOperand 0 0) = true ∧
      failsWith LLVMErr.isAssertion "num_operands=0"
        (getOperand 0 0) = true) ∧
    (i < -1 →
      failsWith LLVMErr.isAssertion "idx >= -1"
        (callsiteAttrIndexGuard api i) = true) := by
  refine ⟨?_, ?_, by decide, ?_⟩
  · intro h
    exact ⟨by rw [indexGuard, if_pos h], by rw [getOperand, if_pos h]⟩
  · intro h
    constructor
    · rw [indexGuard, if_neg h]
      simp only [failsWith, LLVMErr.isAssertion, LLVMErr.message,
        Bool.true_and]
      exact strContains_mid _ _ _
    · rw [getOperand, if_neg h]
      simp only [failsWith, LLVMErr.isAssertion, LLVMErr.message,
        Bool.true_and]
      exact strContains_mid _ _ _
  · intro h
    rw [callsiteAttrIndexGuard, if_pos h]
    simp only [failsWith, LLVMErr.isAssertion, LLVMErr.message,
      Bool.true_and]
    exact strContains_mid _ _ _

/-- Witness for C4 over a 3-element owner at the boundary indices `2`
(= count−1, in range), `3` (= count, out of range), `-1` (negative,
out of range), and the callsite sentinel violation `-2`. -/
theorem C4_index_bounds_witness :
    (indexGuard "get_param" 3 2 = .ok 2 ∧
      getOperand 3 2 = .ok 2) ∧
    (failsWith LLVMErr.isAssertion "out of range"
        (indexGuard "get_param" 3 3) = true ∧
      failsWith LLVMErr.isAssertion "out of range"
        (getOperand 3 3) = true) ∧
    (failsWith LLVMErr.isAssertion "out of range"
        (indexGuard "get_param" 3 (-1)) = true ∧
      failsWith LLVMErr.isAssertion "out of range"
        (getOperand 3 (-1)) = true) ∧
    failsWith LLVMErr.isAssertion "num_operands=0"
      (getOperand 0 0) = true ∧
    failsWith LLVMErr.isAssertion "idx >= -1"
      (callsiteAttrIndexGuard "get_callsite_attribute_count" (-2)) =
      true :=
  ⟨(C4_index_bounds "get_param" 3 2).1 (by decide),
    (C4_index_bounds "get_param" 3 3).2.1 (by decide),
    (C4_index_bounds "get_param" 3 (-1)).2.1 (by decide),
    ((C4_index_bounds "get_param" 0 0).2.2.1).2,
    (C4_index_bounds "get_callsite_attribute_count" 0 (-2)).2.2.2
      (by decide)⟩

/-! ## C5 — atomic mutation rejection -/

theorem runEdit_frame (f : Func) (r : Except LLVMErr Func) (e : LLVMErr)
    (h : (runEdit f r).2 = some e) : (runEdit f r).1 = f := by
  cases r <;> simp [runEdit] at h ⊢

/-- C5: every rejected structural mutation — cross-context
move_before/move_after ("different contexts"), non-PHI-before-PHI move,
terminator moved to an interior position, LandingPad displaced from the
first non-PHI slot, split at a PHI ("PHI") or at an instruction not in
the target block ("not found") — raises the named error and leaves the
function's blocks, each block's instruction/opcode sequence, and the
textual serialization byte-identical to their pre-call state. -/
theorem C5_atomic_mutation_rejection :
    (∀ (f : Func) (iid pid : Nat) (e : LLVMErr),
      (moveBefore f iid pid).2 = some e →
      (moveBefore f iid pid).1 = f ∧
      (moveBefore f iid pid).1.serialize = f.serialize) ∧
    (∀ (f : Func) (iid pid : Nat) (e : LLVMErr),
      (moveAfter f iid pid).2 = some e →
      (moveAfter f iid pid).1 = f ∧
      (moveAfter f iid pid).1.serialize = f.serialize) ∧
    (∀ (f : Func) (s nn : String) (iid fid cid : Nat) (e : LLVMErr),
      (splitBasicBlock f s iid nn fid cid).2 = some e →
      (splitBasicBlock f s iid nn fid cid).1 = f ∧
      (splitBasicBlock f s iid nn fid cid).1.serialize = f.serialize) ∧
    (∀ (f : Func) (s nn : String) (iid fid cid : Nat) (e : LLVMErr),
      (splitBasicBlockBefore f s iid nn fid cid).2 = some e →
      (splitBasicBlockBefore f s iid nn fid cid).1 = f ∧
      (splitBasicBlockBefore f s iid nn fid cid).1.serialize =
        f.serialize) ∧
    optFailsWith LLVMErr.isAssertion "different contexts"
      (moveBefore crossCtxFunc 0 2).2 = true ∧
    optFailsWith LLVMErr.isAssertion "different contexts"
      (moveAfter crossCtxFunc 0 2).2 = true ∧
    optFailsWith LLVMErr.isAssertion "non-PHI"
      (moveBefore diamondFunc 1 4).2 = true ∧
    optFailsWith LLVMErr.isAssertion "PHI"
      (moveAfter diamondFunc 4 5).2 = true ∧
    optFailsWith LLVMErr.isAssertion "terminator"
      (moveBefore diamondFunc 6 5).2 = true ∧
    optFailsWith LLVMErr.isAssertion "LandingPad"
      (moveAfter lpFunc 0 1).2 = true ∧
    optFailsWith LLVMErr.isAssertion "PHI"
      (splitBasicBlock diamondFunc "merge" 4 "s" 100 1).2 = true ∧
    optFailsWith LLVMErr.isAssertion "not found"
      (splitBasicBlock wrongBlockFunc "bb1" 1 "s" 100 1).2 = true ∧
    optFailsWith LLVMErr.isAssertion "PHI"
      (splitBasicBlockBefore diamondFunc "merge" 4 "s" 100 1).2 =
      true ∧
    optFailsWith LLVMErr.isAssertion "not found"
      (splitBasicBlockBefore wrongBlockFunc "bb1" 1 "s" 100 1).2 =
      true ∧
    (moveAfter lpFunc 0 1).1 = lpFunc ∧
    (moveAfter lpFunc 0 1).1.serialize = lpFunc.serialize ∧
    ((moveAfter lpFunc 0 1).1.findBlock "unwind").map
        Block.opcodeNames =
      (lpFunc.findBlock "unwind").map Block.opcodeNames ∧
    (splitBasicBlock diamondFunc "merge" 4 "s" 100 1).1 =
      diamondFunc := by
  refine ⟨?_, ?_, ?_, ?_, ?_⟩
  · intro f iid pid e h
    have h2 : (moveBefore f iid pid).1 = f := runEdit_frame f _ e h
    exact ⟨h2, by rw [h2]⟩
  · intro f iid pid e h
    have h2 : (moveAfter f iid pid).1 = f := runEdit_frame f _ e h
    exact ⟨h2, by rw [h2]⟩
  · intro f s nn iid fid cid e h
    have h2 : (splitBasicBlock f s iid nn fid cid).1 = f :=
      runEdit_frame f _ e h
    exact ⟨h2, by rw [h2]⟩
  · intro f s nn iid fid cid e h
    have h2 : (splitBasicBlockBefore f s iid nn fid cid).1 = f :=
      runEdit_frame f _ e h
    exact ⟨h2, by rw [h2]⟩
  · decide

/-- Witness for C5: the rejected landingpad displacement of
`test_landingpad_move_rejected_and_ir_unchanged` leaves the function
and its serialization unchanged. -/
theorem C5_atomic_mutation_rejection_witness :
    (moveAfter lpFunc 0 1).1 = lpFunc ∧
    (moveAfter lpFunc 0 1).1.serialize = lpFunc.serialize :=
  C5_atomic_mutation_rejection.2.1 lpFunc 0 1
    (LLVMErr.assertionError
      "a LandingPad must remain the first non-PHI instruction of its block")
    (by decide)

/-! ## C6 — successful split semantics -/

theorem span_of_find? (l : List Instr) (iid : Nat) (i : Instr)
    (h : l.find? (fun j => j.id = iid) = some i) :
    ∃ rest, l.dropWhile (fun j => j.id ≠ iid) = i :: rest ∧
      l.takeWhile (fun j => j.id ≠ iid) ++ i :: rest = l := by
  induction l with
  | nil => simp at h
  | cons x xs ih =>
    by_cases hx : x.id = iid
    · rw [List.find?_cons_of_pos _ (by simp [hx])] at h
      obtain rfl : x = i := by simpa using h
      exact ⟨xs, by simp [List.dropWhile_cons, hx],
        by simp [List.takeWhile_cons, hx]⟩
    · rw [List.find?_cons_of_neg _ (by simp [hx])] at h
      obtain ⟨rest, h1, h2⟩ := ih h
      simp only [ne_eq, decide_not] at h1 h2
      exact ⟨rest, by simp [List.dropWhile_cons, hx, h1],
        by simp [List.takeWhile_cons, hx, h2]⟩

/-- C6: on a successful split, `split_basic_block` leaves the original
block ending in an unconditional branch whose single successor is the
new block, which holds the split-point instruction and everything after
it; `split_basic_block_before` additionally retargets every other
block's successor edges from the original block to the new predecessor
block, whose single successor is the original block. -/
theorem C6_split_success (f : Func) (b : Block) (i : Instr)
    (srcName newName : String) (iid freshId ctxId : Nat)
    (hb : f.findBlock srcName = some b)
    (hi : b.instrs.find? (fun j => j.id = iid) = some i)
    (hphi : i.op.isPhi = false) :
    (splitBasicBlock f srcName iid newName freshId ctxId).2 = none ∧
    (∃ pre rest,
      b.instrs = pre ++ i :: rest ∧
      Block.mk b.bname (pre ++ [brInstr freshId ctxId newName]) ∈
        (splitBasicBlock f srcName iid newName freshId ctxId).1.blocks ∧
      Block.mk newName (i :: rest) ∈
        (splitBasicBlock f srcName iid newName freshId ctxId).1.blocks) ∧
    (brInstr freshId ctxId newName).op.isTerminator = true ∧
    (brInstr freshId ctxId newName).op.succs = [newName] ∧
    (splitBasicBlockBefore f srcName iid newName freshId ctxId).2 =
      none ∧
    (∃ pre rest,
      b.instrs = pre ++ i :: rest ∧
      Block.mk newName (pre ++ [brInstr freshId ctxId b.bname]) ∈
        (splitBasicBlockBefore f srcName iid newName freshId
          ctxId).1.blocks ∧
      Block.mk b.bname (i :: rest) ∈
        (splitBasicBlockBefore f srcName iid newName freshId
          ctxId).1.blocks) ∧
    (∀ c ∈ f.blocks, c.bname ≠ b.bname →
      Block.mk c.bname (c.instrs.map (fun j =>
          Instr.mk j.id (j.op.retarget b.bname newName) j.ctxId)) ∈
        (splitBasicBlockBefore f srcName iid newName freshId
          ctxId).1.blocks) ∧
    (brInstr freshId ctxId b.bname).op.succs = [b.bname] ∧
    (∀ op : Opcode, (op.retarget b.bname newName).succs =
      op.succs.map (fun d => if d = b.bname then newName else d)) := by
  obtain ⟨rest, hdrop, hspan⟩ := span_of_find? b.instrs iid i hi
  have hdrop2 : List.dropWhile (fun j => !decide (j.id = iid))
      b.instrs = i :: rest := by
    simpa [ne_eq, decide_not] using hdrop
  have hbmem : b ∈ f.blocks := List.mem_of_find?_eq_some hb
  have hE : splitBasicBlockE f srcName iid newName freshId ctxId =
      .ok ⟨f.blocks.flatMap (fun c =>
        if c.bname = b.bname then
          [Block.mk b.bname
            (b.instrs.takeWhile (fun j => j.id ≠ iid) ++
              [brInstr freshId ctxId newName]),
           Block.mk newName (i :: rest)]
        else [c])⟩ := by
    simp [splitBasicBlockE, hb, hi, hphi, hdrop2]
  have hEb : splitBasicBlockBeforeE f srcName iid newName freshId
      ctxId =
      .ok ⟨f.blocks.flatMap (fun c =>
        if c.bname = b.bname then
          [Block.mk newName
            (b.instrs.takeWhile (fun j => j.id ≠ iid) ++
              [brInstr freshId ctxId b.bname]),
           Block.mk b.bname (i :: rest)]
        else [Block.mk c.bname (c.instrs.map (fun j =>
          Instr.mk j.id (j.op.retarget b.bname newName) j.ctxId))])⟩ := by
    simp [splitBasicBlockBeforeE, hb, hi, hphi, hdrop2]
  refine ⟨?_, ?_, rfl, rfl, ?_, ?_, ?_, rfl, ?_⟩
  · simp [splitBasicBlock, runEdit, hE]
  · refine ⟨b.instrs.takeWhile (fun j => j.id ≠ iid), rest,
      hspan.symm, ?_, ?_⟩ <;>
      simp only [splitBasicBlock, runEdit, hE] <;>
      exact List.mem_flatMap.mpr ⟨b, hbmem, by simp⟩
  · simp [splitBasicBlockBefore, runEdit, hEb]
  · refine ⟨b.instrs.takeWhile (fun j => j.id ≠ iid), rest,
      hspan.symm, ?_, ?_⟩ <;>
      simp only [splitBasicBlockBefore, runEdit, hEb] <;>
      exact List.mem_flatMap.mpr ⟨b, hbmem, by simp⟩
  · intro c hc hne
    simp only [splitBasicBlockBefore, runEdit, hEb]
    exact List.mem_flatMap.mpr ⟨c, hc, by simp [hne]⟩
  · intro op
    cases op <;> simp [Opcode.retarget, Opcode.succs]

/-- Witness for C6 on the concrete fixtures of `test_split_basic_block`
(split at the `mul` instruction) and
`test_split_basic_block_before_rewires_predecessors` (split before the
`add` instruction of the `work` block). -/
theorem C6_split_success_witness :
    (splitBasicBlock splitFunc "entry" 1 "split" 100 1).2 = none ∧
    (splitBasicBlockBefore startWorkFunc "work" 1 "pre_work" 100
      1).2 = none :=
  ⟨(C6_split_success splitFunc
      ⟨"entry", [⟨0, .add, 1⟩, ⟨1, .mul, 1⟩, ⟨2, .ret, 1⟩]⟩
      ⟨1, .mul, 1⟩ "entry" "split" 1 100 1
      (by decide) (by decide) (by decide)).1,
    (C6_split_success startWorkFunc
      ⟨"work", [⟨1, .add, 1⟩, ⟨2, .ret, 1⟩]⟩
      ⟨1, .add, 1⟩ "work" "pre_work" 1 100 1
      (by decide) (by decide) (by decide)).2.2.2.2.1⟩

/-! ## C7 — iterator yield-then-advance and end guards -/

theorem manualNames_eq_drop (it : BinIter) :
    it.manualNames =
      (it.elems.drop it.pos).map (fun e => e.ename) := by
  rw [BinIter.manualNames]
  split
  case isTrue h =>
    have hm : it.moveNext = ⟨it.elems, it.pos + 1⟩ := by
      simp [BinIter.moveNext, BinIter.isAtEnd, Nat.not_le.mpr h]
    rw [hm, manualNames_eq_drop ⟨it.elems, it.pos + 1⟩]
    rw [List.drop_eq_getElem_cons h]
    simp only [List.map_cons, List.get_eq_getElem]
  case isFalse h =>
    rw [List.drop_eq_nil_of_le (Nat.le_of_not_lt h)]
    simp
termination_by it.elems.length - it.pos
decreasing_by
  omega

theorem pythonNames_eq_drop (it : BinIter) :
    it.pythonNames =
      (it.elems.drop it.pos).map (fun e => e.ename) := by
  rw [BinIter.pythonNames]
  split
  case h_1 heq =>
    rw [BinIter.pyNext] at heq
    split at heq
    · cases heq
    · rename_i h
      rw [List.drop_eq_nil_of_le (Nat.le_of_not_lt h)]
      simp
  case h_2 n it2 heq =>
    rw [BinIter.pyNext] at heq
    split at heq
    · rename_i h
      obtain ⟨rfl, rfl⟩ : (it.elems.get ⟨it.pos, h⟩).ename = n ∧
          it.moveNext = it2 := by
        constructor <;> cases heq <;> rfl
      have hm : it.moveNext = ⟨it.elems, it.pos + 1⟩ := by
        simp [BinIter.moveNext, BinIter.isAtEnd, Nat.not_le.mpr h]
      rw [hm, pythonNames_eq_drop ⟨it.elems, it.pos + 1⟩]
      rw [List.drop_eq_getElem_cons h]
      simp only [List.map_cons, List.get_eq_getElem]
    · cases heq
termination_by it.elems.length - it.pos
decreasing_by
  omega

theorem current_error (it : BinIter) (api : String)
    (h : it.isAtEnd = true) :
    it.current api = .error (.assertionError
      ((api ++ " requires an iterator that is ") ++ "not at end" ++
        "")) := by
  rw [BinIter.current, dif_neg]
  rw [BinIter.isAtEnd] at h
  simp only [decide_eq_true_eq] at h
  omega

theorem failsWith_assertion_mid (a frag b : String) :
    failsWith LLVMErr.isAssertion frag
      (Except.error (α := Unit) (.assertionError (a ++ frag ++ b))) =
      true := by
  simp only [failsWith, LLVMErr.isAssertion, LLVMErr.message,
    Bool.true_and]
  exact strContains_mid a frag b

theorem mapped_fails {α β : Type} (g : α → β)
    (r : Except LLVMErr α) (frag : String)
    (h : failsWith LLVMErr.isAssertion frag r = true) :
    failsWith LLVMErr.isAssertion frag (r.map g) = true := by
  cases r <;> simp_all [failsWith, Except.map]

theorem current_fails (it : BinIter) (api : String)
    (h : it.isAtEnd = true) :
    failsWith LLVMErr.isAssertion "not at end" (it.current api) =
      true := by
  rw [current_error it api h]
  simp only [failsWith, LLVMErr.isAssertion, LLVMErr.message,
    Bool.true_and]
  exact strContains_mid _ _ _

/-- C7: for every section/symbol collection, Pythonic for-loop
iteration (yield-then-advance `__next__`) produces exactly the same
names, in the same order, as the manual
`while not is_at_end(): record(); move_next()` loop; and every property
access (name, address, size, contents, relocation
offset/type/type_name/value_string) on an at-end iterator, as well as
`contains_symbol`/`move_to_containing_section` with an at-end symbol
argument, raises `LLVMAssertionError` containing "not at end". -/
theorem C7_iterator_semantics (it sect sym : BinIter) :
    it.pythonNames = it.manualNames ∧
    (it.isAtEnd = true →
      failsWith LLVMErr.isAssertion "not at end" it.name = true ∧
      failsWith LLVMErr.isAssertion "not at end" it.address = true ∧
      failsWith LLVMErr.isAssertion "not at end" it.size = true ∧
      failsWith LLVMErr.isAssertion "not at end" it.sectionContents =
        true ∧
      failsWith LLVMErr.isAssertion "not at end" it.relocOffset =
        true ∧
      failsWith LLVMErr.isAssertion "not at end" it.relocType = true ∧
      failsWith LLVMErr.isAssertion "not at end" it.relocTypeName =
        true ∧
      failsWith LLVMErr.isAssertion "not at end" it.relocValueString =
        true) ∧
    (sym.isAtEnd = true →
      failsWith LLVMErr.isAssertion "not at end"
        (sect.containsSymbol sym) = true ∧
      failsWith LLVMErr.isAssertion "not at end"
        (sect.moveToContainingSection sym) = true) := by
  refine ⟨by rw [pythonNames_eq_drop, manualNames_eq_drop], ?_, ?_⟩
  · intro h
    exact ⟨mapped_fails _ _ _ (current_fails it _ h),
      mapped_fails _ _ _ (current_fails it _ h),
      mapped_fails _ _ _ (current_fails it _ h),
      mapped_fails _ _ _ (current_fails it _ h),
      mapped_fails _ _ _ (current_fails it _ h),
      mapped_fails _ _ _ (current_fails it _ h),
      mapped_fails _ _ _ (current_fails it _ h),
      mapped_fails _ _ _ (current_fails it _ h)⟩
  · intro h
    constructor
    · rw [BinIter.containsSymbol, current_error sym _ h]
      simp only [failsWith, LLVMErr.isAssertion, LLVMErr.message,
        Bool.true_and]
      exact strContains_mid _ _ _
    · rw [BinIter.moveToContainingSection, current_error sym _ h]
      simp only [failsWith, LLVMErr.isAssertion, LLVMErr.message,
        Bool.true_and]
      exact strContains_mid _ _ _

/-- Witness for C7 on a concrete two-element section collection, with
the end-guard hypotheses discharged at the exhausted position 2. -/
theorem C7_iterator_semantics_witness :
    BinIter.pythonNames ⟨[⟨"text", 0, 4, "", 0, 0, "", ""⟩,
        ⟨"data", 4, 4, "", 0, 0, "", ""⟩], 0⟩ =
      BinIter.manualNames ⟨[⟨"text", 0, 4, "", 0, 0, "", ""⟩,
        ⟨"data", 4, 4, "", 0, 0, "", ""⟩], 0⟩ ∧
    failsWith LLVMErr.isAssertion "not at end"
      (BinIter.name ⟨[⟨"text", 0, 4, "", 0, 0, "", ""⟩,
        ⟨"data", 4, 4, "", 0, 0, "", ""⟩], 2⟩) = true ∧
    failsWith LLVMErr.isAssertion "not at end"
      (BinIter.containsSymbol ⟨[], 0⟩
        ⟨[⟨"text", 0, 4, "", 0, 0, "", ""⟩,
          ⟨"data", 4, 4, "", 0, 0, "", ""⟩], 2⟩) = true :=
  ⟨(C7_iterator_semantics ⟨[⟨"text", 0, 4, "", 0, 0, "", ""⟩,
      ⟨"data", 4, 4, "", 0, 0, "", ""⟩], 0⟩ ⟨[], 0⟩ ⟨[], 0⟩).1,
    ((C7_iterator_semantics ⟨[⟨"text", 0, 4, "", 0, 0, "", ""⟩,
      ⟨"data", 4, 4, "", 0, 0, "", ""⟩], 2⟩ ⟨[], 0⟩ ⟨[], 0⟩).2.1
      (by decide)).1,
    ((C7_iterator_semantics ⟨[], 0⟩ ⟨[], 0⟩
      ⟨[⟨"text", 0, 4, "", 0, 0, "", ""⟩,
        ⟨"data", 4, 4, "", 0, 0, "", ""⟩], 2⟩).2.2 (by decide)).1⟩

/-! ## C8 — byte-exact string constants -/

/-- C8: for every bytes input `b`, `const_string(ctx, b,
dont_null_terminate=True)` and `const_data_array(ty, b)` produce a
constant whose array length equals `len(b)` exactly (`len(b)+1` when
null termination is requested), with the byte contents preserved
verbatim — no text-codec re-encoding that could expand the byte
count. -/
theorem C8_byte_exact_constants (b : List Nat) :
    (constString b true).arrayLength = b.length ∧
    (constString b true).bytes = b ∧
    (constString b false).arrayLength = b.length + 1 ∧
    (constString b false).bytes = b ++ [0] ∧
    (constDataArray b).arrayLength = b.length ∧
    (constDataArray b).bytes = b := by
  refine ⟨rfl, rfl, ?_, rfl, rfl, rfl⟩
  simp [constString, ConstDataArray.arrayLength]

/-! ## C9 — exception-first Function accessors -/

/-- C9: on a Function with zero basic blocks (a declaration),
`entry_block`, `first_basic_block` and `last_basic_block` raise
`LLVMAssertionError` naming the accessor and the guard to check
(`is_declaration` / `basic_block_count`) instead of returning None;
likewise `personality_fn`, `get_personality_fn()`, `prefix_data` and
`prologue_data` raise `LLVMAssertionError` naming the corresponding
`has_*` predicate when the datum is absent, and return the value when
present. -/
theorem C9_exception_first_accessors (f : FuncW) :
    (f.blockNames = [] →
      f.isDeclaration = true ∧ f.basicBlockCount = 0 ∧
      failsWith LLVMErr.isAssertion "entry_block" f.entryBlock = true ∧
      failsWith LLVMErr.isAssertion "is_declaration" f.entryBlock =
        true ∧
      failsWith LLVMErr.isAssertion "first_basic_block"
        f.firstBasicBlock = true ∧
      failsWith LLVMErr.isAssertion "basic_block_count"
        f.firstBasicBlock = true ∧
      failsWith LLVMErr.isAssertion "last_basic_block"
        f.lastBasicBlock = true ∧
      failsWith LLVMErr.isAssertion "basic_block_count"
        f.lastBasicBlock = true) ∧
    (∀ b bs, f.blockNames = b :: bs →
      f.entryBlock = .ok b ∧ f.firstBasicBlock = .ok b) ∧
    (f.personality = none →
      failsWith LLVMErr.isAssertion "personality_fn" f.personalityFn =
        true ∧
      failsWith LLVMErr.isAssertion "has_personality_fn"
        f.personalityFn = true ∧
      failsWith LLVMErr.isAssertion "get_personality_fn"
        f.getPersonalityFn = true ∧
      failsWith LLVMErr.isAssertion "has_personality_fn"
        f.getPersonalityFn = true) ∧
    (∀ p, f.personality = some p →
      f.personalityFn = .ok p ∧ f.getPersonalityFn = .ok p) ∧
    (f.prefixDatum = none →
      failsWith LLVMErr.isAssertion "prefix_data" f.prefixData = true ∧
      failsWith LLVMErr.isAssertion "has_prefix_data" f.prefixData =
        true) ∧
    (∀ d, f.prefixDatum = some d → f.prefixData = .ok d) ∧
    (f.prologueDatum = none →
      failsWith LLVMErr.isAssertion "prologue_data" f.prologueData =
        true ∧
      failsWith LLVMErr.isAssertion "has_prologue_data"
        f.prologueData = true) ∧
    (∀ d, f.prologueDatum = some d → f.prologueData = .ok d) := by
  refine ⟨?_, ?_, ?_, ?_, ?_, ?_, ?_, ?_⟩
  · intro h
    refine ⟨by simp [FuncW.isDeclaration, h],
      by simp [FuncW.basicBlockCount, h], ?_, ?_, ?_, ?_, ?_, ?_⟩ <;>
      simp only [FuncW.entryBlock, FuncW.firstBasicBlock,
        FuncW.lastBasicBlock, h] <;> decide
  · intro b bs h
    exact ⟨by simp [FuncW.entryBlock, h],
      by simp [FuncW.firstBasicBlock, h]⟩
  · intro h
    refine ⟨?_, ?_, ?_, ?_⟩ <;>
      simp only [FuncW.personalityFn, FuncW.getPersonalityFn, h] <;>
      decide
  · intro p h
    exact ⟨by simp [FuncW.personalityFn, h],
      by simp [FuncW.getPersonalityFn, h]⟩
  · intro h
    refine ⟨?_, ?_⟩ <;> simp only [FuncW.prefixData, h] <;> decide
  · intro d h
    simp [FuncW.prefixData, h]
  · intro h
    refine ⟨?_, ?_⟩ <;> simp only [FuncW.prologueData, h] <;> decide
  · intro d h
    simp [FuncW.prologueData, h]

/-- Witness for C9 at a concrete declaration (no blocks, no
personality/prefix/prologue data) and a concrete definition carrying
all of them. -/
theorem C9_exception_first_accessors_witness :
    failsWith LLVMErr.isAssertion "is_declaration"
      (FuncW.entryBlock ⟨[], none, none, none⟩) = true ∧
    FuncW.entryBlock ⟨["entry"], some "pers", some 1, some 2⟩ =
      .ok "entry" ∧
    FuncW.personalityFn ⟨["entry"], some "pers", some 1, some 2⟩ =
      .ok "pers" :=
  ⟨((C9_exception_first_accessors ⟨[], none, none, none⟩).1
      rfl).2.2.2.1,
    ((C9_exception_first_accessors
      ⟨["entry"], some "pers", some 1, some 2⟩).2.1 "entry" [] rfl).1,
    ((C9_exception_first_accessors
      ⟨["entry"], some "pers", some 1, some 2⟩).2.2.2.1 "pers"
      rfl).1⟩

/-! ## C10 — object-file-only binary iterators -/

/-- C10: for every Binary created from non-object-file bytes (e.g.
bitcode), accessing the `sections` or `symbols` iterator properties
raises `LLVMAssertionError` mentioning an object-file binary, instead
of creating an iterator over the wrong binary kind; on an object-file
binary both properties return a fresh iterator at position 0. -/
theorem C10_binary_kind_guard (b : BinaryW) :
    (b.kind ≠ .objectFile →
      failsWith LLVMErr.isAssertion "object-file binary" b.sections =
        true ∧
      failsWith LLVMErr.isAssertion "object-file binary" b.symbols =
        true) ∧
    (b.kind = .objectFile →
      b.sections = .ok ⟨b.sectionElems, 0⟩ ∧
      b.symbols = .ok ⟨b.symbolElems, 0⟩) := by
  constructor
  · intro h
    exact ⟨by rw [BinaryW.sections, if_neg h]; decide,
      by rw [BinaryW.symbols, if_neg h]; decide⟩
  · intro h
    exact ⟨by rw [BinaryW.sections, if_pos h],
      by rw [BinaryW.symbols, if_pos h]⟩

/-- Witness for C10 at a concrete bitcode binary and a concrete
object-file binary. -/
theorem C10_binary_kind_guard_witness :
    failsWith LLVMErr.isAssertion "object-file binary"
      (BinaryW.sections ⟨.bitcode, [], []⟩) = true ∧
    BinaryW.sections ⟨.objectFile, [], []⟩ = .ok ⟨[], 0⟩ :=
  ⟨((C10_binary_kind_guard ⟨.bitcode, [], []⟩).1 (by decide)).1,
    ((C10_binary_kind_guard ⟨.objectFile, [], []⟩).2 rfl).1⟩
